import Mathlib

/-!
Shallow embedding of `src/Server.py`, a single-threaded capture → infer →
map → serialize → send loop with sleep-based pacing and a preview window
that hosts the quit key.

Python floats are modelled as exact rationals (`ℚ`); `time.time()` readings,
camera results, estimator results, socket success and `cv2.waitKey` codes are
oracle inputs supplied per iteration, since they come from the outside world.
-/

namespace FBTServer

/-- Target frame rate constant from the top of the source (`TARGET_FPS = 30`). -/
def TARGET_FPS : ℚ := 30

/-- Target period between iterations, `frame_time = 1.0 / TARGET_FPS`. -/
def frame_time (targetFPS : ℚ) : ℚ := 1 / targetFPS

/-- One body landmark as reported by the pose estimator: normalized
coordinates `x`, `y`, `z` (`lm.x`, `lm.y`, `lm.z` in the source). -/
structure Landmark where
  x : ℚ
  y : ℚ
  z : ℚ
deriving DecidableEq

/-- Pixel-space mapping applied to a single landmark (source lines 68-70):
`posX = lm.x * w`, `posY = h - (lm.y * h)`, `posZ = lm.z * w`, with `w`, `h`
the actual dimensions read back from the current frame (`h, w, _ = img.shape`). -/
def mapLandmark (w h : ℚ) (lm : Landmark) : ℚ × ℚ × ℚ :=
  (lm.x * w, h - (lm.y * h), lm.z * w)

/-- The flat coordinate list built by the landmark loop (source lines 55-72):
starting from `data = []`, each landmark in estimator order appends
`[posX, posY, posZ]` via `data.extend`. -/
def buildData (w h : ℚ) (lms : List Landmark) : List ℚ :=
  lms.foldl (fun data lm => data ++ [lm.x * w, h - (lm.y * h), lm.z * w]) []

/-- Unfolding `buildData`: the `extend` fold equals the concatenation of the
per-landmark triples, in landmark order. -/
theorem buildData_eq_join (w h : ℚ) (lms : List Landmark) :
    buildData w h lms
      = (lms.map (fun lm => [lm.x * w, h - (lm.y * h), lm.z * w])).flatten := by
  suffices H : ∀ init : List ℚ,
      lms.foldl (fun data lm => data ++ [lm.x * w, h - (lm.y * h), lm.z * w]) init
        = init ++ (lms.map (fun lm => [lm.x * w, h - (lm.y * h), lm.z * w])).flatten by
    simpa using H []
  induction lms with
  | nil => intro init; simp
  | cons lm rest ih =>
      intro init
      simp [List.foldl_cons, ih, List.append_assoc]

/-- Cons form of `buildData`. -/
theorem buildData_cons (w h : ℚ) (lm : Landmark) (lms : List Landmark) :
    buildData w h (lm :: lms)
      = lm.x * w :: (h - (lm.y * h)) :: lm.z * w :: buildData w h lms := by
  simp [buildData_eq_join]

/-- Nil form of `buildData`. -/
theorem buildData_nil (w h : ℚ) : buildData w h [] = [] := rfl

/-- Length of the built payload: three values per landmark. -/
theorem buildData_length (w h : ℚ) (lms : List Landmark) :
    (buildData w h lms).length = 3 * lms.length := by
  induction lms with
  | nil => rfl
  | cons lm rest ih => simp [buildData_cons, ih]; ring

/-- C1: for every landmark with normalized coordinates `(x, y, z)` and the
current frame's actual dimensions `(w, h)`, the mapper produces exactly
`(x*w, h - y*h, z*w)` with no clamping and no rounding, applied independently
to each landmark in estimator-reported order, and the flat output list
preserves that order: the `i`-th landmark's coordinates sit at positions
`3i`, `3i+1`, `3i+2`. -/
theorem mapper_exact_and_order (w h : ℚ) (lms : List Landmark) (i : Nat) :
    (buildData w h lms).length = 3 * lms.length ∧
    (buildData w h lms).get? (3 * i) = (lms.get? i).map (fun lm => lm.x * w) ∧
    (buildData w h lms).get? (3 * i + 1)
      = (lms.get? i).map (fun lm => h - (lm.y * h)) ∧
    (buildData w h lms).get? (3 * i + 2) = (lms.get? i).map (fun lm => lm.z * w) := by
  refine ⟨buildData_length w h lms, ?_⟩
  induction lms generalizing i with
  | nil => simp [buildData_nil]
  | cons lm rest ih =>
      cases i with
      | zero => simp [buildData_cons]
      | succ j =>
          have h3 : 3 * (j + 1) = 3 * j + 1 + 1 + 1 := by ring
          obtain ⟨ih1, ih2, ih3⟩ := ih j
          simp only [List.get?_eq_getElem?] at ih1 ih2 ih3
          simp [buildData_cons, h3, List.get?, ih1, ih2, ih3]

/-- Python text of a list, as `str(data)` renders a Python list: an opening
bracket, the elements rendered one by one and joined by comma-space, and a
closing bracket. The per-element rendering (Python float `repr`) is passed in. -/
def pyStrOfList (render : ℚ → String) (data : List ℚ) : String :=
  "[" ++ String.intercalate ", " (data.map render) ++ "]"

/-- Modelled from the spec: Python's default float rendering (`repr`) is the
host language's text for a number; the spec's concrete scenario only exercises
it on nonnegative integral values, where it prints the integer part followed
by `.0` (for example `640.0`). -/
def pyFloatRepr (q : ℚ) : String := toString q.num ++ ".0"

/-- Oracle inputs one loop iteration consumes from the outside world:
`success, img = cap.read()` (frame dimensions `h, w, _ = img.shape`),
`results = pose.process(...)` (`none` when `results.pose_landmarks` is falsy),
whether `sock.sendto` raises (`sendOk = false` means it raises and is caught),
the two `time.time()` readings at lines 81 and 85, and the key code returned
by `cv2.waitKey(1)`. -/
structure IterInput where
  success : Bool
  frameW : ℚ
  frameH : ℚ
  landmarks : Option (List Landmark)
  sendOk : Bool
  tAfterProc : ℚ
  tAfterSleep : ℚ
  keyCode : Nat
deriving DecidableEq

/-- Observable effects of one loop iteration: payloads handed to the network
(empty when `sendto` raised), number of `sendto` calls attempted, the sleep
performed by the pacer (`none` when no sleep), the value stored into
`last_frame_time`, whether `cv2.imshow` ran, how many times the quit key was
polled (`cv2.waitKey` calls), and whether the iteration executed `break`. -/
structure IterOutput where
  datagrams : List (List ℚ)
  sendAttempts : Nat
  sleep : Option ℚ
  newLastFrameTime : ℚ
  previewShown : Bool
  quitPolls : Nat
  brk : Bool
deriving DecidableEq

/-- The `continue` branch (source lines 45-47): a failed capture skips every
downstream step of the iteration and leaves `last_frame_time` untouched. -/
def captureFailOutput (lastFrameTime : ℚ) : IterOutput :=
  { datagrams := [], sendAttempts := 0, sleep := none,
    newLastFrameTime := lastFrameTime, previewShown := false,
    quitPolls := 0, brk := false }

/-- One iteration of the `while True` loop (source lines 42-91), as a pure
function of the stored `last_frame_time` and the iteration's oracle inputs. -/
def runIteration (frameTime lastFrameTime : ℚ) (inp : IterInput) : IterOutput :=
  if inp.success = false then captureFailOutput lastFrameTime
  else
    let data : List ℚ :=
      match inp.landmarks with
      | none => []
      | some lms => buildData inp.frameW inp.frameH lms
    let attempts : Nat :=
      match inp.landmarks with
      | none => 0
      | some _ => 1
    let sent : List (List ℚ) :=
      match inp.landmarks with
      | none => []
      | some _ => if inp.sendOk then [data] else []
    let elapsed : ℚ := inp.tAfterProc - lastFrameTime
    { datagrams := sent, sendAttempts := attempts,
      sleep := if elapsed < frameTime then some (frameTime - elapsed) else none,
      newLastFrameTime := inp.tAfterSleep, previewShown := true,
      quitPolls := 1, brk := inp.keyCode % 256 == 113 }

/-- The loop itself, run over a finite prefix of oracle inputs, threading
`last_frame_time` and stopping at the first iteration that breaks. -/
def runLoop (frameTime : ℚ) : ℚ → List IterInput → List IterOutput
  | _, [] => []
  | t, inp :: rest =>
    let out := runIteration frameTime t inp
    if out.brk then [out] else out :: runLoop frameTime out.newLastFrameTime rest

/-- Result of the whole program on a finite input prefix. Once the loop exits,
lines 93-94 unconditionally run `cap.release()` and `cv2.destroyAllWindows()`. -/
structure ProgramResult where
  iterations : List IterOutput
  capReleased : Bool
  windowsDestroyed : Bool
deriving DecidableEq

/-- The program: the loop followed by the unconditional resource release. -/
def runProgram (frameTime lastFrameTime : ℚ) (inputs : List IterInput) :
    ProgramResult :=
  { iterations := runLoop frameTime lastFrameTime inputs,
    capReleased := true, windowsDestroyed := true }

/-- Unfolding `runIteration` on a successful capture with a detection. -/
theorem runIteration_det (ft t : ℚ) (inp : IterInput) (lms : List Landmark)
    (hs : inp.success = true) (hl : inp.landmarks = some lms) :
    runIteration ft t inp =
      { datagrams := if inp.sendOk then [buildData inp.frameW inp.frameH lms] else [],
        sendAttempts := 1,
        sleep := if inp.tAfterProc - t < ft then some (ft - (inp.tAfterProc - t)) else none,
        newLastFrameTime := inp.tAfterSleep, previewShown := true,
        quitPolls := 1, brk := inp.keyCode % 256 == 113 } := by
  simp [runIteration, hs, hl]

/-- Unfolding `runIteration` on a successful capture with no detection. -/
theorem runIteration_nodet (ft t : ℚ) (inp : IterInput)
    (hs : inp.success = true) (hl : inp.landmarks = none) :
    runIteration ft t inp =
      { datagrams := [], sendAttempts := 0,
        sleep := if inp.tAfterProc - t < ft then some (ft - (inp.tAfterProc - t)) else none,
        newLastFrameTime := inp.tAfterSleep, previewShown := true,
        quitPolls := 1, brk := inp.keyCode % 256 == 113 } := by
  simp [runIteration, hs, hl]

/-- Unfolding `runIteration` on a failed capture. -/
theorem runIteration_fail (ft t : ℚ) (inp : IterInput)
    (hs : inp.success = false) :
    runIteration ft t inp = captureFailOutput t := by
  simp [runIteration, hs]

/-- C2: if the estimator returns a detection for a frame, exactly one datagram
is sent for that frame — one `sendto` call is attempted and, when it succeeds,
the single transmitted payload is the built data list — and that payload
contains exactly `3 * landmarkCount` values, concatenated as
`(posX, posY, posZ)` triples in the estimator's landmark order. -/
theorem detection_sends_one_datagram (fps t : ℚ) (inp : IterInput)
    (lms : List Landmark) (hs : inp.success = true) (hl : inp.landmarks = some lms)
    (hok : inp.sendOk = true) :
    (runIteration (frame_time fps) t inp).sendAttempts = 1 ∧
    (runIteration (frame_time fps) t inp).datagrams
      = [buildData inp.frameW inp.frameH lms] ∧
    (buildData inp.frameW inp.frameH lms).length = 3 * lms.length ∧
    buildData inp.frameW inp.frameH lms
      = (lms.map (fun lm =>
          [lm.x * inp.frameW, inp.frameH - (lm.y * inp.frameH),
           lm.z * inp.frameW])).flatten := by
  rw [runIteration_det (frame_time fps) t inp lms hs hl]
  exact ⟨rfl, by simp [hok], buildData_length _ _ _, buildData_eq_join _ _ _⟩

/-- Concrete instance for `detection_sends_one_datagram`: frame 1280×720, one
landmark at normalized `(0.5, 0.5, 0.1)`, send succeeding. -/
def exDetInput : IterInput :=
  { success := true, frameW := 1280, frameH := 720,
    landmarks := some [⟨1/2, 1/2, 1/10⟩], sendOk := true,
    tAfterProc := 20, tAfterSleep := 30, keyCode := 0 }

/-- Witness for C2 at `exDetInput`. -/
theorem detection_sends_one_datagram_witness :
    exDetInput.success = true ∧ exDetInput.landmarks = some [⟨1/2, 1/2, 1/10⟩] ∧
    exDetInput.sendOk = true ∧
    ((runIteration (frame_time 30) 0 exDetInput).sendAttempts = 1 ∧
     (runIteration (frame_time 30) 0 exDetInput).datagrams
       = [buildData exDetInput.frameW exDetInput.frameH [⟨1/2, 1/2, 1/10⟩]] ∧
     (buildData exDetInput.frameW exDetInput.frameH [⟨1/2, 1/2, 1/10⟩]).length
       = 3 * ([⟨1/2, 1/2, 1/10⟩] : List Landmark).length ∧
     buildData exDetInput.frameW exDetInput.frameH [⟨1/2, 1/2, 1/10⟩]
       = (([⟨1/2, 1/2, 1/10⟩] : List Landmark).map (fun lm =>
           [lm.x * exDetInput.frameW, exDetInput.frameH - (lm.y * exDetInput.frameH),
            lm.z * exDetInput.frameW])).flatten) :=
  ⟨rfl, rfl, rfl, detection_sends_one_datagram 30 0 exDetInput [⟨1/2, 1/2, 1/10⟩] rfl rfl rfl⟩

/-- C3: if the estimator reports no pose for a frame, no payload is constructed
and exactly zero datagrams are sent for that frame, and the loop proceeds to
the next iteration without error (the iteration's output is produced normally
and, absent the quit key, the remaining iterations still run). -/
theorem no_detection_sends_nothing (fps t : ℚ) (inp : IterInput)
    (rest : List IterInput) (hs : inp.success = true) (hl : inp.landmarks = none)
    (hk : inp.keyCode % 256 ≠ 113) :
    (runIteration (frame_time fps) t inp).datagrams = [] ∧
    (runIteration (frame_time fps) t inp).sendAttempts = 0 ∧
    runLoop (frame_time fps) t (inp :: rest)
      = runIteration (frame_time fps) t inp ::
          runLoop (frame_time fps) inp.tAfterSleep rest := by
  have hout := runIteration_nodet (frame_time fps) t inp hs hl
  have hbrk : (runIteration (frame_time fps) t inp).brk = false := by
    rw [hout]; simpa using hk
  refine ⟨by rw [hout], by rw [hout], ?_⟩
  have hb : (inp.keyCode % 256 == 113) = false := by simpa using hk
  rw [runLoop]
  simp [hout, hb]

/-- Concrete instance for `no_detection_sends_nothing`: successful capture,
estimator reports nothing. -/
def exNoDetInput : IterInput :=
  { success := true, frameW := 1280, frameH := 720,
    landmarks := none, sendOk := true,
    tAfterProc := 20, tAfterSleep := 30, keyCode := 0 }

/-- Witness for C3 at `exNoDetInput`. -/
theorem no_detection_sends_nothing_witness :
    exNoDetInput.success = true ∧ exNoDetInput.landmarks = none ∧
    exNoDetInput.keyCode % 256 ≠ 113 ∧
    ((runIteration (frame_time 30) 0 exNoDetInput).datagrams = [] ∧
     (runIteration (frame_time 30) 0 exNoDetInput).sendAttempts = 0 ∧
     runLoop (frame_time 30) 0 [exNoDetInput]
       = runIteration (frame_time 30) 0 exNoDetInput ::
           runLoop (frame_time 30) exNoDetInput.tAfterSleep []) :=
  ⟨rfl, rfl, by decide,
   no_detection_sends_nothing 30 0 exNoDetInput [] rfl rfl (by decide)⟩

/-- C4: on a successful capture, the pacer computes the elapsed time since the
stored timestamp; if it is below the target period `1/targetFPS` it sleeps
exactly the difference, otherwise it performs no sleep; any sleep duration is
strictly positive (never negative); and the stored timestamp is updated to the
time read after any sleep. -/
theorem pacer_behaviour (fps t : ℚ) (inp : IterInput) (hs : inp.success = true) :
    (runIteration (frame_time fps) t inp).sleep
      = (if inp.tAfterProc - t < frame_time fps
         then some (frame_time fps - (inp.tAfterProc - t)) else none) ∧
    (∀ d, (runIteration (frame_time fps) t inp).sleep = some d → 0 < d) ∧
    (runIteration (frame_time fps) t inp).newLastFrameTime = inp.tAfterSleep := by
  have hsleep : (runIteration (frame_time fps) t inp).sleep
      = (if inp.tAfterProc - t < frame_time fps
         then some (frame_time fps - (inp.tAfterProc - t)) else none) := by
    cases hl : inp.landmarks with
    | none => rw [runIteration_nodet _ t inp hs hl]
    | some lms => rw [runIteration_det _ t inp lms hs hl]
  refine ⟨hsleep, ?_, ?_⟩
  · intro d hd
    rw [hsleep] at hd
    by_cases hlt : inp.tAfterProc - t < frame_time fps
    · rw [if_pos hlt] at hd
      obtain rfl : frame_time fps - (inp.tAfterProc - t) = d := by
        simpa using hd
      linarith
    · rw [if_neg hlt] at hd
      exact absurd hd (by simp)
  · cases hl : inp.landmarks with
    | none => rw [runIteration_nodet _ t inp hs hl]
    | some lms => rw [runIteration_det _ t inp lms hs hl]

/-- Witness for C4 at `exDetInput` (elapsed `20 - 0` exceeds the period, so no
sleep happens there). -/
theorem pacer_behaviour_witness :
    exDetInput.success = true ∧
    ((runIteration (frame_time 30) 0 exDetInput).sleep
       = (if exDetInput.tAfterProc - 0 < frame_time 30
          then some (frame_time 30 - (exDetInput.tAfterProc - 0)) else none) ∧
     (∀ d, (runIteration (frame_time 30) 0 exDetInput).sleep = some d → 0 < d) ∧
     (runIteration (frame_time 30) 0 exDetInput).newLastFrameTime
       = exDetInput.tAfterSleep) :=
  ⟨rfl, pacer_behaviour 30 0 exDetInput rfl⟩

/-- A run whose captures all fail reduces to a constant stream of `continue`
outputs, with the stored timestamp frozen at its initial value. -/
theorem runLoop_all_fail (ft t : ℚ) (inputs : List IterInput)
    (hfail : ∀ inp ∈ inputs, inp.success = false) :
    runLoop ft t inputs = inputs.map (fun _ => captureFailOutput t) := by
  induction inputs with
  | nil => rfl
  | cons inp rest ih =>
      have h1 : inp.success = false := hfail inp (by simp)
      have h2 : ∀ i ∈ rest, i.success = false := fun i hi => hfail i (by simp [hi])
      rw [runLoop, runIteration_fail _ t inp h1]
      simp [captureFailOutput, ih h2]

/-- C5: a failed capture skips all downstream work and the loop retries: over
any run whose captures all fail, every iteration does nothing but continue —
no datagrams, no send attempts, no break — the stored timestamp never moves,
and all iterations are processed (the process does not terminate). -/
theorem capture_failure_retries (fps t : ℚ) (inputs : List IterInput)
    (hfail : ∀ inp ∈ inputs, inp.success = false) :
    runLoop (frame_time fps) t inputs
      = inputs.map (fun _ => captureFailOutput t) ∧
    (runLoop (frame_time fps) t inputs).length = inputs.length ∧
    ∀ out ∈ runLoop (frame_time fps) t inputs,
      out.datagrams = [] ∧ out.sendAttempts = 0 ∧ out.brk = false := by
  have hmap := runLoop_all_fail (frame_time fps) t inputs hfail
  refine ⟨hmap, by rw [hmap]; simp, ?_⟩
  intro out hout
  rw [hmap] at hout
  obtain ⟨_, _, rfl⟩ := List.mem_map.mp hout
  exact ⟨rfl, rfl, rfl⟩

/-- A capture-failure input whose quit key is even pressed (`keyCode = 113`). -/
def exFailInput : IterInput :=
  { success := false, frameW := 1280, frameH := 720,
    landmarks := none, sendOk := true,
    tAfterProc := 20, tAfterSleep := 30, keyCode := 113 }

/-- Witness for C5 on three consecutive capture failures. -/
theorem capture_failure_retries_witness :
    (∀ inp ∈ [exFailInput, exFailInput, exFailInput], inp.success = false) ∧
    (runLoop (frame_time 30) 0 [exFailInput, exFailInput, exFailInput]
       = [exFailInput, exFailInput, exFailInput].map (fun _ => captureFailOutput 0) ∧
     (runLoop (frame_time 30) 0 [exFailInput, exFailInput, exFailInput]).length
       = ([exFailInput, exFailInput, exFailInput] : List IterInput).length ∧
     ∀ out ∈ runLoop (frame_time 30) 0 [exFailInput, exFailInput, exFailInput],
       out.datagrams = [] ∧ out.sendAttempts = 0 ∧ out.brk = false) :=
  ⟨by decide, capture_failure_retries 30 0 _ (by decide)⟩

/-- C6: a failing `sendto` is caught and does not abort the loop: the failed
frame's payload is dropped (nothing transmitted) with no retry (exactly the
one attempt), every other observable of the iteration — pacing, timestamp,
preview, quit poll, break — is exactly what it would have been had the send
succeeded, and once the failure clears a later iteration's datagram goes out. -/
theorem send_failure_drops_frame (fps t : ℚ) (inp : IterInput)
    (lms : List Landmark) (hs : inp.success = true) (hl : inp.landmarks = some lms)
    (hsend : inp.sendOk = false) :
    (runIteration (frame_time fps) t inp).datagrams = [] ∧
    (runIteration (frame_time fps) t inp).sendAttempts = 1 ∧
    runIteration (frame_time fps) t { inp with sendOk := true }
      = { runIteration (frame_time fps) t inp with
          datagrams := [buildData inp.frameW inp.frameH lms] } ∧
    (∀ inp2 lms2, inp2.success = true → inp2.landmarks = some lms2 →
      inp2.sendOk = true → inp.keyCode % 256 ≠ 113 →
      (runLoop (frame_time fps) t [inp, inp2]).map IterOutput.datagrams
        = [[], [buildData inp2.frameW inp2.frameH lms2]]) := by
  have hout := runIteration_det (frame_time fps) t inp lms hs hl
  have hout' := runIteration_det (frame_time fps) t { inp with sendOk := true } lms
    (by simpa using hs) (by simpa using hl)
  refine ⟨by rw [hout]; simp [hsend], by rw [hout], ?_, ?_⟩
  · rw [hout, hout']
    simp [hsend]
  · intro inp2 lms2 hs2 hl2 hsend2 hk
    have hout2 := runIteration_det (frame_time fps) inp.tAfterSleep inp2 lms2 hs2 hl2
    have hb : (inp.keyCode % 256 == 113) = false := by simpa using hk
    rw [runLoop]
    simp only [hout, hb]
    rw [runLoop]
    cases hbrk2 : ((runIteration (frame_time fps) inp.tAfterSleep inp2).brk) with
    | true => simp [hbrk2, hout2, hsend, hsend2]
    | false => simp [hbrk2, hout2, hsend, hsend2, runLoop]

/-- Concrete instances for `send_failure_drops_frame`: a detection whose send
raises, then the same detection with the transport healthy again. -/
def exSendFailInput : IterInput :=
  { success := true, frameW := 1280, frameH := 720,
    landmarks := some [⟨1/2, 1/2, 1/10⟩], sendOk := false,
    tAfterProc := 20, tAfterSleep := 30, keyCode := 0 }

/-- Witness for C6 at `exSendFailInput` followed by `exDetInput`. -/
theorem send_failure_drops_frame_witness :
    exSendFailInput.success = true ∧
    exSendFailInput.landmarks = some [⟨1/2, 1/2, 1/10⟩] ∧
    exSendFailInput.sendOk = false ∧
    ((runIteration (frame_time 30) 0 exSendFailInput).datagrams = [] ∧
     (runIteration (frame_time 30) 0 exSendFailInput).sendAttempts = 1 ∧
     runIteration (frame_time 30) 0 { exSendFailInput with sendOk := true }
       = { runIteration (frame_time 30) 0 exSendFailInput with
           datagrams := [buildData exSendFailInput.frameW exSendFailInput.frameH
             [⟨1/2, 1/2, 1/10⟩]] } ∧
     (∀ inp2 lms2, inp2.success = true → inp2.landmarks = some lms2 →
       inp2.sendOk = true → exSendFailInput.keyCode % 256 ≠ 113 →
       (runLoop (frame_time 30) 0 [exSendFailInput, inp2]).map IterOutput.datagrams
         = [[], [buildData inp2.frameW inp2.frameH lms2]])) :=
  ⟨rfl, rfl, rfl,
   send_failure_drops_frame 30 0 exSendFailInput [⟨1/2, 1/2, 1/10⟩] rfl rfl rfl⟩

/-- C7: the coordinate mapping is invertible: for positive frame dimensions,
dividing `posX` by `w`, subtracting `posY` from `h` and dividing by `h`, and
dividing `posZ` by `w` recover the original normalized coordinates exactly. -/
theorem mapper_invertible (w h x y z : ℚ) (hw : 0 < w) (hh : 0 < h) :
    (mapLandmark w h ⟨x, y, z⟩).1 / w = x ∧
    (h - (mapLandmark w h ⟨x, y, z⟩).2.1) / h = y ∧
    (mapLandmark w h ⟨x, y, z⟩).2.2 / w = z := by
  have hw' : w ≠ 0 := ne_of_gt hw
  have hh' : h ≠ 0 := ne_of_gt hh
  refine ⟨?_, ?_, ?_⟩ <;> simp [mapLandmark] <;> field_simp

/-- Witness for C7 on a 1280×720 frame and landmark `(2, 3, 4)`. -/
theorem mapper_invertible_witness :
    (0 : ℚ) < 1280 ∧ (0 : ℚ) < 720 ∧
    ((mapLandmark 1280 720 ⟨2, 3, 4⟩).1 / 1280 = 2 ∧
     (720 - (mapLandmark 1280 720 ⟨2, 3, 4⟩).2.1) / 720 = 3 ∧
     (mapLandmark 1280 720 ⟨2, 3, 4⟩).2.2 / 1280 = 4) :=
  ⟨by decide, by decide, mapper_invertible 1280 720 2 3 4 (by decide) (by decide)⟩

/-- The break flag of any iteration: the quit key only takes effect on a
successfully captured frame, because a failed capture `continue`s before the
`cv2.waitKey` poll. -/
theorem runIteration_brk (ft t : ℚ) (inp : IterInput) :
    (runIteration ft t inp).brk = (inp.success && (inp.keyCode % 256 == 113)) := by
  cases hs : inp.success with
  | false => rw [runIteration_fail ft t inp hs]; rfl
  | true =>
      cases hl : inp.landmarks with
      | none => rw [runIteration_nodet ft t inp hs hl]; simp
      | some lms => rw [runIteration_det ft t inp lms hs hl]; simp

/-- Changing only the key code of an iteration's inputs changes only the
break flag: the iteration's work is complete and identical either way. -/
theorem runIteration_keyCode (ft t : ℚ) (inp : IterInput) (k : Nat) :
    runIteration ft t { inp with keyCode := k }
      = { runIteration ft t inp with
          brk := (inp.success && (k % 256 == 113)) } := by
  cases inp with
  | mk success frameW frameH landmarks sendOk tAfterProc tAfterSleep keyCode =>
      cases success <;> cases landmarks <;> simp [runIteration, captureFailOutput]

/-- If no processed input carries the quit key on a successful capture, the
loop never breaks early: every supplied input is processed. -/
theorem runLoop_length_of_no_quit (ft : ℚ) (inputs : List IterInput) :
    ∀ t, (∀ i ∈ inputs, i.success = true → i.keyCode % 256 ≠ 113) →
      (runLoop ft t inputs).length = inputs.length := by
  induction inputs with
  | nil => intro t _; rfl
  | cons inp rest ih =>
      intro t hq
      have hbrk : (runIteration ft t inp).brk = false := by
        rw [runIteration_brk]
        cases hs : inp.success with
        | false => rfl
        | true =>
            have := hq inp (by simp) hs
            simpa using this
      rw [runLoop]
      simp only [hbrk, Bool.false_eq_true, if_false, List.length_cons]
      rw [ih _ (fun i hi => hq i (by simp [hi]))]

/-- A concrete capture-failure iteration with the quit key pressed
(`keyCode = 113`), showing the poll is skipped. -/
def exFailQuitInput : IterInput :=
  { success := false, frameW := 1280, frameH := 720,
    landmarks := none, sendOk := true,
    tAfterProc := 20, tAfterSleep := 30, keyCode := 113 }

/-- C8 as stated is false on the code: an iteration whose capture fails
executes `continue` before `cv2.waitKey`, so it polls the quit key zero
times, not exactly once. -/
theorem quit_polled_every_iteration_cex :
    ¬ (runIteration (frame_time 30) 0 exFailQuitInput).quitPolls = 1 := by
  rw [runIteration_fail (frame_time 30) 0 exFailQuitInput rfl]
  decide

/-- C8 amended: every loop iteration whose capture succeeds polls the quit
key exactly once, in the preview step; the iteration still completes all of
its work (only the break flag differs when the quit key is pressed); upon the
quit key the loop terminates right after that completed iteration; absent a
quit key on a successful capture the loop never terminates; and once the loop
exits the camera and the preview surface are released. -/
theorem quit_key_behaviour (fps t : ℚ) (inp : IterInput)
    (rest inputs : List IterInput) (hs : inp.success = true) :
    (runIteration (frame_time fps) t inp).quitPolls = 1 ∧
    (runIteration (frame_time fps) t inp).brk = (inp.keyCode % 256 == 113) ∧
    runIteration (frame_time fps) t { inp with keyCode := 113 }
      = { runIteration (frame_time fps) t inp with brk := true } ∧
    (inp.keyCode % 256 = 113 →
      runLoop (frame_time fps) t (inp :: rest)
        = [runIteration (frame_time fps) t inp]) ∧
    ((∀ i ∈ inputs, i.success = true → i.keyCode % 256 ≠ 113) →
      (runLoop (frame_time fps) t inputs).length = inputs.length) ∧
    (runProgram (frame_time fps) t inputs).capReleased = true ∧
    (runProgram (frame_time fps) t inputs).windowsDestroyed = true := by
  have hpoll : (runIteration (frame_time fps) t inp).quitPolls = 1 := by
    cases hl : inp.landmarks with
    | none => rw [runIteration_nodet _ t inp hs hl]
    | some lms => rw [runIteration_det _ t inp lms hs hl]
  have hbrk : (runIteration (frame_time fps) t inp).brk
      = (inp.keyCode % 256 == 113) := by
    rw [runIteration_brk, hs, Bool.true_and]
  refine ⟨hpoll, hbrk, ?_, ?_, runLoop_length_of_no_quit _ inputs t, rfl, rfl⟩
  · rw [runIteration_keyCode, hs]
    norm_num
  · intro hq
    have hb : (runIteration (frame_time fps) t inp).brk = true := by
      rw [hbrk]; simpa using hq
    rw [runLoop]
    simp [hb]

/-- Witness for the amended C8 at `exDetInput`, with a quit-key iteration
(`{ exDetInput with keyCode := 113 }`) closing a two-iteration run. -/
theorem quit_key_behaviour_witness :
    exDetInput.success = true ∧
    ((runIteration (frame_time 30) 0 exDetInput).quitPolls = 1 ∧
     (runIteration (frame_time 30) 0 exDetInput).brk
       = (exDetInput.keyCode % 256 == 113) ∧
     runIteration (frame_time 30) 0 { exDetInput with keyCode := 113 }
       = { runIteration (frame_time 30) 0 exDetInput with brk := true } ∧
     (exDetInput.keyCode % 256 = 113 →
       runLoop (frame_time 30) 0 (exDetInput :: [exNoDetInput])
         = [runIteration (frame_time 30) 0 exDetInput]) ∧
     ((∀ i ∈ [exDetInput, exNoDetInput], i.success = true → i.keyCode % 256 ≠ 113) →
       (runLoop (frame_time 30) 0 [exDetInput, exNoDetInput]).length
         = ([exDetInput, exNoDetInput] : List IterInput).length) ∧
     (runProgram (frame_time 30) 0 [exDetInput, exNoDetInput]).capReleased = true ∧
     (runProgram (frame_time 30) 0 [exDetInput, exNoDetInput]).windowsDestroyed
       = true) :=
  ⟨rfl, quit_key_behaviour 30 0 exDetInput [exNoDetInput] [exDetInput, exNoDetInput] rfl⟩

/-- C9: the datagram payload is the host language's default rendering of the
flat coordinate list, `str(data)`: character-for-character an opening bracket,
the `3 * landmarkCount` rendered values joined by comma-space, and a closing
bracket; on the spec's concrete scenario (frame 1280×720, one landmark at
`(0.5, 0.5, 0.1)`) the on-wire text is exactly `[640.0, 360.0, 128.0]`. -/
theorem payload_is_python_list_text (render : ℚ → String) (w h : ℚ)
    (lms : List Landmark) :
    (pyStrOfList render (buildData w h lms)).data
      = '[' :: (String.intercalate ", " ((buildData w h lms).map render)).data
          ++ [']'] ∧
    ((buildData w h lms).map render).length = 3 * lms.length ∧
    pyStrOfList pyFloatRepr (buildData 1280 720 [⟨1/2, 1/2, 1/10⟩])
      = "[640.0, 360.0, 128.0]" := by
  refine ⟨?_, by simp [buildData_length], ?_⟩
  · simp [pyStrOfList, String.data_append]
  · have hd : buildData 1280 720 [⟨1/2, 1/2, 1/10⟩] = [640, 360, 128] := by
      norm_num [buildData_cons, buildData_nil]
    rw [hd]
    rfl

/-- C10: a capture-failure iteration performs no pacing sleep, no timestamp
update, no preview render and no quit-key poll — in particular it never
breaks, even with the quit key down — and under sustained capture failure no
processed iteration ever breaks, so the quit key cannot terminate the loop. -/
theorem capture_failure_skips_quit (fps t : ℚ) (inp : IterInput)
    (inputs : List IterInput) (hf : inp.success = false) :
    (runIteration (frame_time fps) t inp).sleep = none ∧
    (runIteration (frame_time fps) t inp).newLastFrameTime = t ∧
    (runIteration (frame_time fps) t inp).previewShown = false ∧
    (runIteration (frame_time fps) t inp).quitPolls = 0 ∧
    (runIteration (frame_time fps) t inp).brk = false ∧
    ((∀ i ∈ inputs, i.success = false) →
      ∀ out ∈ runLoop (frame_time fps) t inputs, out.brk = false) := by
  rw [runIteration_fail _ t inp hf]
  refine ⟨rfl, rfl, rfl, rfl, rfl, ?_⟩
  intro hall out hout
  rw [runLoop_all_fail _ t inputs hall] at hout
  obtain ⟨_, _, rfl⟩ := List.mem_map.mp hout
  rfl

/-- Witness for C10: a single failing capture with the quit key pressed the
whole time, over a two-iteration sustained failure. -/
theorem capture_failure_skips_quit_witness :
    exFailQuitInput.success = false ∧
    ((runIteration (frame_time 30) 0 exFailQuitInput).sleep = none ∧
     (runIteration (frame_time 30) 0 exFailQuitInput).newLastFrameTime = 0 ∧
     (runIteration (frame_time 30) 0 exFailQuitInput).previewShown = false ∧
     (runIteration (frame_time 30) 0 exFailQuitInput).quitPolls = 0 ∧
     (runIteration (frame_time 30) 0 exFailQuitInput).brk = false ∧
     ((∀ i ∈ [exFailQuitInput, exFailQuitInput], i.success = false) →
       ∀ out ∈ runLoop (frame_time 30) 0 [exFailQuitInput, exFailQuitInput],
         out.brk = false)) :=
  ⟨rfl, capture_failure_skips_quit 30 0 exFailQuitInput
    [exFailQuitInput, exFailQuitInput] rfl⟩

end FBTServer
